import Mathlib

/-!
Verification of the parser-combinator library in `parsers.py`.

Text is modelled as `List Char` (Python `str` slices). A `Result α` is the
outcome of one parse attempt: `ok value remaining` or `err expected actual`,
mirroring the Python `Result` class. A parser is a function
`List Char → Result α`; combinators are higher-order functions on such
parsers, translated directly from the Python methods.

`the_letter_a` evaluates `input[0]`, which raises `IndexError` on empty
input, so its model returns `Option (Result Unit)` with `none` standing for
the runtime error; the deep-embedded grammar used for the suffix-monotonicity
invariant threads this `Option` layer through every combinator, matching how
a Python exception propagates.
-/

namespace Parsers

/-- Outcome of one parse attempt (Python class `Result`). -/
inductive Result (α : Type) where
  | ok (value : α) (remaining : List Char)
  | err (expected : String) (actual : List Char)
deriving DecidableEq, Repr

/-- `Result.map`: apply `f` to the value in this result, if successful. -/
def Result.map (f : α → β) : Result α → Result β
  | .ok v r => .ok (f v) r
  | .err e a => .err e a

/-- `Result.flat_map`: apply `f` to the value and remaining text in this
result, if successful (as used by `Parser.__mul__`, where `f` returns a
`Result`). -/
def Result.flat_map (r : Result α) (f : α → List Char → Result β) : Result β :=
  match r with
  | .ok v rem => f v rem
  | .err e a => .err e a

/-- `Result.map_expected`: map `f` over the expected message, if not
successful. -/
def Result.map_expected (f : String → String) : Result α → Result α
  | .ok v r => .ok v r
  | .err e a => .err (f e) a

/-- A parser as the Python `Parser` decorator views it: a function from
input text to `Result`. -/
abbrev ParserFun (α : Type) : Type := List Char → Result α

/-- `Parser.map`: map `f` over the result of this parser. -/
def Parser.map (p : ParserFun α) (f : α → β) : ParserFun β :=
  fun input => (p input).map f

/-- `Parser.retn`: replace the result of this parser with the constant `v`. -/
def Parser.retn (p : ParserFun α) (v : β) : ParserFun β :=
  fun input => (p input).map (fun _ => v)

/-- `Parser.__mul__`: sequence two parsers, pairing their values; the second
runs on the first's remaining text (`_seq` built from `_step2`). -/
def Parser.mul (p : ParserFun α) (p2 : ParserFun β) : ParserFun (α × β) :=
  fun input => (p input).flat_map (fun v1 r1 => (p2 r1).map (fun v2 => (v1, v2)))

/-- `Parser.__or__`: try this parser first, and `p2` second if it fails,
joining the expected messages of a double failure with " or ". -/
def Parser.or (p p2 : ParserFun α) : ParserFun α :=
  fun input =>
    match p input with
    | .ok v r => .ok v r
    | .err e1 _ => (p2 input).map_expected (fun e2 => e1 ++ " or " ++ e2)

/-- `Parser.before`: the product projected to the second value. -/
def Parser.before (p : ParserFun α) (p2 : ParserFun β) : ParserFun β :=
  Parser.map (Parser.mul p p2) (fun t => t.2)

/-- `Parser.then`: the product projected to the first value (named
`andThen` here because `then` is reserved). -/
def Parser.andThen (p : ParserFun α) (p2 : ParserFun β) : ParserFun α :=
  Parser.map (Parser.mul p p2) (fun t => t.1)

/-- `Parser.flat_map` with its `return mapped` typo repaired to return the
local `_mapped`: the body is `self(input).flat_map(f)` where `f` returns a
`Parser`, so `Result.flat_map` hands back `f(value, remaining)` — the next
parser object itself, never invoked on the remaining text — while on
failure it hands back the failure `Result`. The dynamic type of the return
value is therefore a sum of the two. -/
def Parser.flat_map (p : ParserFun α) (f : α → List Char → ParserFun β) :
    List Char → Result β ⊕ ParserFun β :=
  fun input =>
    match p input with
    | .ok v r => Sum.inr (f v r)
    | .err e a => Sum.inl (.err e a)

/-- `ParserRef.set`: unconditionally store `p` in the cell. The cell state
is `Option (ParserFun α)`, `none` modelling the unset `_p` attribute. -/
def ParserRef.set (_st : Option (ParserFun α)) (p : ParserFun α) :
    Option (ParserFun α) :=
  some p

/-- `the_letter_a`: returns `Unit` if the input text begins with `a`. The
code checks `input[0] == 'a'`, and `input[0]` raises `IndexError` on empty
input; `none` models that runtime error. -/
def the_letter_a : List Char → Option (Result Unit)
  | [] => none
  | c :: rest =>
    if c = 'a' then some (.ok () rest)
    else some (.err "'a'" (c :: rest))

/-- `string(expected)`: succeeds if the input starts with `expected`,
consuming it and returning the unit value (the code returns `()` despite
its `Parser[str]` annotation). -/
def string (expected : List Char) : ParserFun Unit :=
  fun input =>
    if input.take expected.length = expected then
      .ok () (input.drop expected.length)
    else
      .err ("'" ++ String.mk expected ++ "'") input

/-- `skip_whitespace`: skips initial whitespace (`lstrip(" \n\r\t")`). -/
def skip_whitespace : ParserFun Unit :=
  fun input =>
    .ok () (input.dropWhile (fun c => c = ' ' || c = '\n' || c = '\r' || c = '\t'))

/-- The inclusive code-point ranges on which Python's `str.isdigit` is
true for a single character: the code points with Unicode property
Numeric_Type=Decimal or Numeric_Type=Digit (Unicode 14.0, as shipped with
CPython 3.11). This includes the ASCII digits 48-57 together with
superscripts, fullwidth and other scripts' digit characters. -/
def isdigitRanges : List (Nat × Nat) :=
  [(48, 57), (178, 179), (185, 185), (1632, 1641), (1776, 1785),
   (1984, 1993), (2406, 2415), (2534, 2543), (2662, 2671), (2790, 2799),
   (2918, 2927), (3046, 3055), (3174, 3183), (3302, 3311), (3430, 3439),
   (3558, 3567), (3664, 3673), (3792, 3801), (3872, 3881), (4160, 4169),
   (4240, 4249), (4969, 4977), (6112, 6121), (6160, 6169), (6470, 6479),
   (6608, 6618), (6784, 6793), (6800, 6809), (6992, 7001), (7088, 7097),
   (7232, 7241), (7248, 7257), (8304, 8304), (8308, 8313), (8320, 8329),
   (9312, 9320), (9332, 9340), (9352, 9360), (9450, 9450), (9461, 9469),
   (9471, 9471), (10102, 10110), (10112, 10120), (10122, 10130),
   (42528, 42537), (43216, 43225), (43264, 43273), (43472, 43481),
   (43504, 43513), (43600, 43609), (44016, 44025), (65296, 65305),
   (66720, 66729), (68160, 68163), (68912, 68921), (69216, 69224),
   (69714, 69722), (69734, 69743), (69872, 69881), (69942, 69951),
   (70096, 70105), (70384, 70393), (70736, 70745), (70864, 70873),
   (71248, 71257), (71360, 71369), (71472, 71481), (71904, 71913),
   (72016, 72025), (72784, 72793), (73040, 73049), (73120, 73129),
   (92768, 92777), (92864, 92873), (93008, 93017), (120782, 120831),
   (123200, 123209), (123632, 123641), (125264, 125273), (127232, 127242),
   (130032, 130041)]

/-- Python's `input[pos].isdigit()` on one character: membership in one of
the `isdigitRanges`. -/
def pythonIsDigit (c : Char) : Bool :=
  isdigitRanges.any (fun p => p.1 ≤ c.toNat && c.toNat ≤ p.2)

/-- The digit-accumulation loop of `integer`: starting from `value`,
consume leading `isdigit()` characters with
`value = value * 10 + (ord(c) - ord('0'))`, returning the final value and
the unconsumed rest. -/
def integer_loop : Nat → List Char → Nat × List Char
  | value, [] => (value, [])
  | value, c :: rest =>
    if pythonIsDigit c then
      integer_loop (value * 10 + (c.toNat - '0'.toNat)) rest
    else (value, c :: rest)

/-- `integer`: reads a nonempty maximal run of `isdigit()` characters,
accumulating `value = value * 10 + (ord(c) - ord('0'))`; fails with
expected "an integer" when the input is empty or does not start with such
a character. -/
def integer : ParserFun Nat
  | [] => .err "an integer" []
  | c :: rest =>
    if pythonIsDigit c then
      let vr := integer_loop 0 (c :: rest)
      .ok vr.1 vr.2
    else .err "an integer" (c :: rest)

/-! ### Deep embedding for the suffix-monotonicity invariant

A grammar built from the library's primitives and combinators. Its
semantics `PSyn.run` returns `Option (Result α)`: `none` is a propagating
runtime error (the `IndexError` that `the_letter_a` raises on empty
input), threaded through every combinator the way a Python exception
unwinds through the combinator closures. -/

/-- Semantics of `Parser.map` (also `retn`, `before`, `then`, which are
`map`s of other parsers) lifted over the runtime-error layer. -/
def mapRun (q : List Char → Option (Result α)) (f : α → β) :
    List Char → Option (Result β) :=
  fun input => Option.map (Result.map f) (q input)

/-- Semantics of `Parser.__mul__` lifted over the runtime-error layer. -/
def prodRun (q1 : List Char → Option (Result α))
    (q2 : List Char → Option (Result β)) :
    List Char → Option (Result (α × β)) :=
  fun input =>
    match q1 input with
    | none => none
    | some (Result.err e a) => some (Result.err e a)
    | some (Result.ok v1 r1) =>
      Option.map (Result.map (fun v2 => (v1, v2))) (q2 r1)

/-- Semantics of `Parser.__or__` lifted over the runtime-error layer. -/
def orRun (q1 q2 : List Char → Option (Result α)) :
    List Char → Option (Result α) :=
  fun input =>
    match q1 input with
    | none => none
    | some (Result.ok v r) => some (Result.ok v r)
    | some (Result.err e1 _) =>
      Option.map (Result.map_expected (fun e2 => e1 ++ " or " ++ e2)) (q2 input)

/-- Syntax of parsers built from the library's primitives and
combinators. -/
inductive PSyn : Type → Type 1 where
  | letterA : PSyn Unit
  | str (expected : List Char) : PSyn Unit
  | ws : PSyn Unit
  | int : PSyn Nat
  | map {α β : Type} (p : PSyn α) (f : α → β) : PSyn β
  | retn {α β : Type} (p : PSyn α) (v : β) : PSyn β
  | prod {α β : Type} (p1 : PSyn α) (p2 : PSyn β) : PSyn (α × β)
  | orElse {α : Type} (p1 p2 : PSyn α) : PSyn α
  | before {α β : Type} (p1 : PSyn α) (p2 : PSyn β) : PSyn β
  | andThen {α β : Type} (p1 : PSyn α) (p2 : PSyn β) : PSyn α

/-- Run a deep-embedded parser; each case is the corresponding Python
primitive or combinator (total primitives wrapped in `some`; `before` and
`then` are `(p1 * p2).map` of the respective projection). -/
def PSyn.run : PSyn α → List Char → Option (Result α)
  | .letterA => the_letter_a
  | .str e => fun input => some (string e input)
  | .ws => fun input => some (skip_whitespace input)
  | .int => fun input => some (integer input)
  | .map p f => mapRun p.run f
  | .retn p v => mapRun p.run (fun _ => v)
  | .prod p1 p2 => prodRun p1.run p2.run
  | .orElse p1 p2 => orRun p1.run p2.run
  | .before p1 p2 => mapRun (prodRun p1.run p2.run) (fun t => t.2)
  | .andThen p1 p2 => mapRun (prodRun p1.run p2.run) (fun t => t.1)

/-! ### Helper lemmas -/

/-- The digit loop of `integer` computes the left fold
`value = value * 10 + digit` over the maximal leading digit run and leaves
the rest of the input. -/
theorem integer_loop_spec (l : List Char) (v : Nat) :
    integer_loop v l =
      ((l.takeWhile pythonIsDigit).foldl
        (fun acc c => acc * 10 + (c.toNat - '0'.toNat)) v,
       l.dropWhile pythonIsDigit) := by
  induction l generalizing v with
  | nil => simp [integer_loop]
  | cons c rest ih =>
    by_cases h : pythonIsDigit c
    · simp [integer_loop, h, List.takeWhile_cons, List.dropWhile_cons, ih]
    · simp [integer_loop, h, List.takeWhile_cons, List.dropWhile_cons]

/-- Inversion for `mapRun` on a successful outcome. -/
theorem mapRun_ok {α β : Type} {q : List Char → Option (Result α)} {f : α → β}
    {s : List Char} {v : β} {r : List Char}
    (h : mapRun q f s = some (Result.ok v r)) :
    ∃ v0, q s = some (Result.ok v0 r) ∧ f v0 = v := by
  unfold mapRun at h
  cases hq : q s with
  | none => rw [hq] at h; simp at h
  | some res =>
    rw [hq] at h
    cases res with
    | ok v0 r0 =>
      simp [Result.map] at h
      obtain ⟨hv, hr⟩ := h
      subst hr
      exact ⟨v0, rfl, hv⟩
    | err e a => simp [Result.map] at h

/-- Inversion for `prodRun` on a successful outcome. -/
theorem prodRun_ok {α β : Type} {q1 : List Char → Option (Result α)}
    {q2 : List Char → Option (Result β)} {s : List Char} {v : α × β}
    {r : List Char} (h : prodRun q1 q2 s = some (Result.ok v r)) :
    ∃ v1 r1 v2, q1 s = some (Result.ok v1 r1) ∧
      q2 r1 = some (Result.ok v2 r) ∧ v = (v1, v2) := by
  unfold prodRun at h
  split at h
  · simp at h
  · simp at h
  · next v1 r1 hq1 =>
    cases hq2 : q2 r1 with
    | none => rw [hq2] at h; simp at h
    | some res =>
      rw [hq2] at h
      cases res with
      | ok v2 r2 =>
        simp [Result.map] at h
        obtain ⟨hv, hr⟩ := h
        subst hr
        exact ⟨v1, r1, v2, hq1, hq2, hv.symm⟩
      | err e a => simp [Result.map] at h

/-- Inversion for `orRun` on a successful outcome. -/
theorem orRun_ok {α : Type} {q1 q2 : List Char → Option (Result α)}
    {s : List Char} {v : α} {r : List Char}
    (h : orRun q1 q2 s = some (Result.ok v r)) :
    q1 s = some (Result.ok v r) ∨
      (∃ e a, q1 s = some (Result.err e a) ∧ q2 s = some (Result.ok v r)) := by
  unfold orRun at h
  split at h
  · simp at h
  · next v0 r0 hq1 =>
    simp at h
    obtain ⟨hv, hr⟩ := h
    subst hv
    subst hr
    exact Or.inl hq1
  · next e1 a1 hq1 =>
    right
    refine ⟨e1, a1, hq1, ?_⟩
    cases hq2 : q2 s with
    | none => rw [hq2] at h; simp at h
    | some res =>
      rw [hq2] at h
      cases res with
      | ok v2 r2 =>
        simp [Result.map_expected] at h
        obtain ⟨hv, hr⟩ := h
        subst hv
        subst hr
        rfl
      | err e2 a2 => simp [Result.map_expected] at h

/-- The remaining text of a successful `the_letter_a` is a suffix of the
input. -/
theorem the_letter_a_suffix {s : List Char} {v : Unit} {r : List Char}
    (h : the_letter_a s = some (Result.ok v r)) : ∃ t, t ++ r = s := by
  match s with
  | [] => simp [the_letter_a] at h
  | c :: rest =>
    unfold the_letter_a at h
    by_cases hc : c = 'a'
    · simp [hc] at h
      exact ⟨[c], by simp [h, hc]⟩
    · simp [hc] at h

/-- The remaining text of a successful `string` is a suffix of the input. -/
theorem string_suffix {e : List Char} {s : List Char} {v : Unit}
    {r : List Char} (h : string e s = Result.ok v r) : ∃ t, t ++ r = s := by
  unfold string at h
  by_cases hp : s.take e.length = e
  · simp [hp] at h
    exact ⟨s.take e.length, by rw [← h, List.take_append_drop]⟩
  · simp [hp] at h

/-- The remaining text of `skip_whitespace` is a suffix of the input. -/
theorem skip_whitespace_suffix {s : List Char} {v : Unit} {r : List Char}
    (h : skip_whitespace s = Result.ok v r) : ∃ t, t ++ r = s := by
  unfold skip_whitespace at h
  simp only [Result.ok.injEq, true_and] at h
  exact ⟨s.takeWhile (fun c => c = ' ' || c = '\n' || c = '\r' || c = '\t'), by
    rw [← h, List.takeWhile_append_dropWhile]⟩

/-- The remaining text of a successful `integer` is a suffix of the
input. -/
theorem integer_suffix {s : List Char} {v : Nat} {r : List Char}
    (h : integer s = Result.ok v r) : ∃ t, t ++ r = s := by
  match s with
  | [] => simp [integer] at h
  | c :: rest =>
    by_cases hc : pythonIsDigit c
    · simp [integer, hc, integer_loop_spec] at h
      exact ⟨(c :: rest).takeWhile pythonIsDigit, by
        rw [← h.2]
        simp [List.takeWhile_cons, hc, List.takeWhile_append_dropWhile]⟩
    · simp [integer, hc] at h

/-- Any success of a deep-embedded parser leaves a suffix of its input. -/
theorem run_suffix {α : Type} (p : PSyn α) :
    ∀ (s : List Char) (v : α) (r : List Char),
      PSyn.run p s = some (Result.ok v r) → ∃ t, t ++ r = s := by
  induction p with
  | letterA =>
    intro s v r h
    exact the_letter_a_suffix h
  | str e =>
    intro s v r h
    simp only [PSyn.run, Option.some_inj] at h
    exact string_suffix h
  | ws =>
    intro s v r h
    simp only [PSyn.run, Option.some_inj] at h
    exact skip_whitespace_suffix h
  | int =>
    intro s v r h
    simp only [PSyn.run, Option.some_inj] at h
    exact integer_suffix h
  | map p f ih =>
    intro s v r h
    simp only [PSyn.run] at h
    obtain ⟨v0, hq, _⟩ := mapRun_ok h
    exact ih s v0 r hq
  | retn p v0 ih =>
    intro s v r h
    simp only [PSyn.run] at h
    obtain ⟨w, hq, _⟩ := mapRun_ok h
    exact ih s w r hq
  | prod p1 p2 ih1 ih2 =>
    intro s v r h
    simp only [PSyn.run] at h
    obtain ⟨v1, r1, v2, h1, h2, _⟩ := prodRun_ok h
    obtain ⟨t1, ht1⟩ := ih1 s v1 r1 h1
    obtain ⟨t2, ht2⟩ := ih2 r1 v2 r h2
    exact ⟨t1 ++ t2, by rw [List.append_assoc, ht2, ht1]⟩
  | orElse p1 p2 ih1 ih2 =>
    intro s v r h
    simp only [PSyn.run] at h
    rcases orRun_ok h with h1 | ⟨e, a, _, h2⟩
    · exact ih1 s v r h1
    · exact ih2 s v r h2
  | before p1 p2 ih1 ih2 =>
    intro s v r h
    simp only [PSyn.run] at h
    obtain ⟨v0, hq, _⟩ := mapRun_ok h
    obtain ⟨v1, r1, v2, h1, h2, _⟩ := prodRun_ok hq
    obtain ⟨t1, ht1⟩ := ih1 s v1 r1 h1
    obtain ⟨t2, ht2⟩ := ih2 r1 v2 r h2
    exact ⟨t1 ++ t2, by rw [List.append_assoc, ht2, ht1]⟩
  | andThen p1 p2 ih1 ih2 =>
    intro s v r h
    simp only [PSyn.run] at h
    obtain ⟨v0, hq, _⟩ := mapRun_ok h
    obtain ⟨v1, r1, v2, h1, h2, _⟩ := prodRun_ok hq
    obtain ⟨t1, ht1⟩ := ih1 s v1 r1 h1
    obtain ⟨t2, ht2⟩ := ih2 r1 v2 r h2
    exact ⟨t1 ++ t2, by rw [List.append_assoc, ht2, ht1]⟩

/-! ### Claims -/

/-- Claim C1: `Parser.flat_map` is claimed to build a well-defined parser
that, on Success of `p`, invokes the next parser `f(value, remaining)` on
the remaining text. The code instead hands that next parser back as the
return value without invoking it (on top of the `return mapped` name
error): evaluating the typo-repaired body on a succeeding input yields the
un-invoked parser object, not the outcome of running it. -/
theorem C1_flat_map_returns_next_parser_uninvoked :
    Parser.flat_map (string "a".data) (fun _ _ => string "b".data) "ab".data =
      Sum.inr (string "b".data) := rfl

/-- Claim C2 counterexample: with `p1 = string "a"`, `p2 = string "b"` and
`s = "c"`, `p1` fails on `s`, yet `(p1 | p2)(s)` is not equal to `p2(s)`:
the combined failure carries expected `"'a' or 'b'"` while `p2(s)` carries
expected `"'b'"`. -/
theorem C2_or_equals_p2_counterexample :
    string "a".data "c".data = Result.err "'a'" "c".data ∧
    Parser.or (string "a".data) (string "b".data) "c".data ≠
      string "b".data "c".data := by
  constructor
  · decide
  · decide

/-- Claim C2 (amended): if `p1` fails on `s`, then `p2` is invoked on the
same original `s`; when `p2` succeeds, `(p1 | p2)(s)` equals `p2(s)`
exactly, and when `p2` fails, `(p1 | p2)(s)` is `p2`'s failure with the
same `actual` but with `expected` replaced by the two expected messages
joined with " or ". -/
theorem C2_or_backtracking {α : Type} (p1 p2 : ParserFun α) (s : List Char)
    (e1 : String) (a1 : List Char) (h1 : p1 s = Result.err e1 a1) :
    (∀ v r, p2 s = Result.ok v r → Parser.or p1 p2 s = p2 s) ∧
    (∀ e2 a2, p2 s = Result.err e2 a2 →
      Parser.or p1 p2 s = Result.err (e1 ++ " or " ++ e2) a2) := by
  constructor
  · intro v r h2
    simp [Parser.or, h1, h2, Result.map_expected]
  · intro e2 a2 h2
    simp [Parser.or, h1, h2, Result.map_expected]

/-- Claim C2 witness: the amended backtracking law applied at
`p1 = string "a"`, `p2 = string "b"` with `s = "ba"` (second branch
succeeds on the original input) and `s = "c"` (both branches fail). -/
theorem C2_or_backtracking_witness :
    Parser.or (string "a".data) (string "b".data) "ba".data =
      string "b".data "ba".data ∧
    Parser.or (string "a".data) (string "b".data) "c".data =
      Result.err ("'a'" ++ " or " ++ "'b'") "c".data := by
  constructor
  · exact (C2_or_backtracking (string "a".data) (string "b".data) "ba".data
      "'a'" "ba".data (by decide)).1 () "a".data (by decide)
  · exact (C2_or_backtracking (string "a".data) (string "b".data) "c".data
      "'a'" "c".data (by decide)).2 "'b'" "c".data (by decide)

/-- Claim C3: `the_letter_a` on empty input evaluates `input[0]` and
raises `IndexError` (modelled as `none`) instead of returning the claimed
`Failure("'a'", "")`; on nonempty input it behaves as claimed. -/
theorem C3_the_letter_a_crashes_on_empty :
    the_letter_a [] = none ∧
    the_letter_a "ab".data = some (Result.ok () "b".data) ∧
    the_letter_a "ba".data = some (Result.err "'a'" "ba".data) := by
  refine ⟨rfl, by decide, by decide⟩

/-- Claim C4 counterexample: `ParserRef.set` on an already-bound cell
silently installs the new parser — the resulting cell holds the second
parser, whose behaviour differs from the first — rather than failing
fast. -/
theorem C4_set_installs_counterexample :
    ParserRef.set (some (string "a".data)) (string "b".data) =
      some (string "b".data) ∧
    string "b".data "b".data ≠ string "a".data "b".data := by
  exact ⟨rfl, by decide⟩

/-- Claim C4 (amended): `ParserRef.set` unconditionally stores the new
parser, whatever the cell held before; a second call silently replaces
the first binding and neither raises nor produces a Failure outcome. -/
theorem C4_set_overwrites {α : Type} (st : Option (ParserFun α))
    (p : ParserFun α) : ParserRef.set st p = some p := rfl

/-- Claim C5: sequencing `p1 * p2` propagates `p1`'s failure untouched
(for every `p2`, which is thus never consulted); when `p1` succeeds and
`p2` fails on `p1`'s remaining text, `p2`'s failure propagates untouched;
when both succeed, the values are paired with `p2`'s final remaining
text. -/
theorem C5_mul_spec {α β : Type} (p1 : ParserFun α) (p2 : ParserFun β)
    (s : List Char) :
    (∀ e a, p1 s = Result.err e a → Parser.mul p1 p2 s = Result.err e a) ∧
    (∀ v1 r1 e a, p1 s = Result.ok v1 r1 → p2 r1 = Result.err e a →
      Parser.mul p1 p2 s = Result.err e a) ∧
    (∀ v1 r1 v2 r2, p1 s = Result.ok v1 r1 → p2 r1 = Result.ok v2 r2 →
      Parser.mul p1 p2 s = Result.ok (v1, v2) r2) := by
  refine ⟨?_, ?_, ?_⟩
  · intro e a h1
    simp [Parser.mul, h1, Result.flat_map]
  · intro v1 r1 e a h1 h2
    simp [Parser.mul, h1, h2, Result.flat_map, Result.map]
  · intro v1 r1 v2 r2 h1 h2
    simp [Parser.mul, h1, h2, Result.flat_map, Result.map]

/-- Claim C5 witness: the three clauses of the product law at concrete
parsers — first-branch failure on `"c"`, second-branch failure on `"ac"`,
and double success on `"ab"`. -/
theorem C5_mul_spec_witness :
    Parser.mul (string "a".data) (string "b".data) "c".data =
      Result.err "'a'" "c".data ∧
    Parser.mul (string "a".data) (string "b".data) "ac".data =
      Result.err "'b'" "c".data ∧
    Parser.mul (string "a".data) (string "b".data) "ab".data =
      Result.ok ((), ()) [] := by
  refine ⟨?_, ?_, ?_⟩
  · exact (C5_mul_spec (string "a".data) (string "b".data) "c".data).1
      "'a'" "c".data (by decide)
  · exact (C5_mul_spec (string "a".data) (string "b".data) "ac".data).2.1
      () "c".data "'b'" "c".data (by decide) (by decide)
  · exact (C5_mul_spec (string "a".data) (string "b".data) "ab".data).2.2
      () "b".data () [] (by decide) (by decide)

/-- Claim C6: when both branches of `p1 | p2` fail, the result is a
failure whose expected message is `p1`'s expected, " or ", and `p2`'s
expected in that order, with `actual` taken from `p2`'s failure; and a
success of `p1` is returned exactly, for every `p2`. -/
theorem C6_or_combined_failure {α : Type} (p1 p2 : ParserFun α)
    (s : List Char) :
    (∀ e1 a1 e2 a2, p1 s = Result.err e1 a1 → p2 s = Result.err e2 a2 →
      Parser.or p1 p2 s = Result.err (e1 ++ " or " ++ e2) a2) ∧
    (∀ v r, p1 s = Result.ok v r → Parser.or p1 p2 s = Result.ok v r) := by
  constructor
  · intro e1 a1 e2 a2 h1 h2
    simp [Parser.or, h1, h2, Result.map_expected]
  · intro v r h1
    simp [Parser.or, h1]

/-- Claim C6 witness: the combined failure and the left-biased success at
concrete parsers (`string "a"`, `string "b"`). -/
theorem C6_or_combined_failure_witness :
    Parser.or (string "a".data) (string "b".data) "c".data =
      Result.err ("'a'" ++ " or " ++ "'b'") "c".data ∧
    Parser.or (string "a".data) (string "b".data) "ab".data =
      Result.ok () "b".data := by
  constructor
  · exact (C6_or_combined_failure (string "a".data) (string "b".data)
      "c".data).1 "'a'" "c".data "'b'" "c".data (by decide) (by decide)
  · exact (C6_or_combined_failure (string "a".data) (string "b".data)
      "ab".data).2 () "b".data (by decide)

/-- Claim C7 counterexample: on the input "٣" (ARABIC-INDIC DIGIT THREE,
U+0663), whose first character is not an ASCII decimal digit, `integer`
does not return the claimed `Failure("an integer", "٣")`: Python's
`str.isdigit` accepts the character, so the parser succeeds and returns
`ord('٣') - ord('0') = 1587` with nothing remaining. -/
theorem C7_integer_ascii_counterexample :
    Char.isDigit '٣' = false ∧ integer ['٣'] = Result.ok 1587 [] := by
  constructor
  · decide
  · decide

/-- Claim C7 (amended): `integer` fails with expected "an integer" and
the full original input exactly when the input is empty or its first
character is rejected by Python's `str.isdigit` (which accepts every
Unicode Numeric_Type=Decimal or Digit character, not only ASCII);
otherwise it consumes the maximal leading run of `isdigit()` characters
(`takeWhile`) and returns the left fold
`value = value * 10 + (ord(c) - ord('0'))` over that run — base-10
accumulation whenever the run is ASCII — leaving the rest (`dropWhile`). -/
theorem C7_integer_spec (input : List Char) :
    integer input =
      if input.takeWhile pythonIsDigit = [] then
        Result.err "an integer" input
      else
        Result.ok
          ((input.takeWhile pythonIsDigit).foldl
            (fun v c => v * 10 + (c.toNat - '0'.toNat)) 0)
          (input.dropWhile pythonIsDigit) := by
  match input with
  | [] => simp [integer]
  | c :: rest =>
    by_cases h : pythonIsDigit c
    · simp [integer, h, List.takeWhile_cons, List.dropWhile_cons,
        integer_loop_spec]
    · simp [integer, h, List.takeWhile_cons, List.dropWhile_cons]

/-- Claim C8: suffix monotonicity — every success of a parser built from
the library's primitives and combinators leaves a remaining text that is
an actual suffix of the input, hence no longer than the input. -/
theorem C8_suffix_monotonicity {α : Type} (p : PSyn α) (s : List Char)
    (v : α) (r : List Char) (h : PSyn.run p s = some (Result.ok v r)) :
    (∃ t, t ++ r = s) ∧ r.length ≤ s.length := by
  obtain ⟨t, ht⟩ := run_suffix p s v r h
  refine ⟨⟨t, ht⟩, ?_⟩
  calc r.length ≤ t.length + r.length := Nat.le_add_left _ _
    _ = s.length := by rw [← List.length_append, ht]

/-- Claim C8 witness: the invariant applied to `the_letter_a` run on
`"ab"`, which succeeds leaving `"b"`. -/
theorem C8_suffix_monotonicity_witness :
    (∃ t, t ++ "b".data = "ab".data) ∧ ("b".data).length ≤ ("ab".data).length :=
  C8_suffix_monotonicity PSyn.letterA "ab".data () "b".data (by decide)

/-- Claim C9: `before` and `then` agree on success-versus-failure, on the
failure itself, and on the remaining text; they differ only in the carried
value — `before` keeps the second parser's value and `then` keeps the
first's. -/
theorem C9_before_andThen_duality {α β : Type} (p1 : ParserFun α)
    (p2 : ParserFun β) (s : List Char) :
    (∃ e a, Parser.before p1 p2 s = Result.err e a ∧
      Parser.andThen p1 p2 s = Result.err e a) ∨
    (∃ v1 v2 r, Parser.mul p1 p2 s = Result.ok (v1, v2) r ∧
      Parser.before p1 p2 s = Result.ok v2 r ∧
      Parser.andThen p1 p2 s = Result.ok v1 r) := by
  match h1 : p1 s with
  | Result.err e a =>
    left
    refine ⟨e, a, ?_, ?_⟩ <;>
      simp [Parser.before, Parser.andThen, Parser.map, Parser.mul, h1,
        Result.flat_map, Result.map]
  | Result.ok v1 r1 =>
    match h2 : p2 r1 with
    | Result.err e a =>
      left
      refine ⟨e, a, ?_, ?_⟩ <;>
        simp [Parser.before, Parser.andThen, Parser.map, Parser.mul, h1, h2,
          Result.flat_map, Result.map]
    | Result.ok v2 r2 =>
      right
      refine ⟨v1, v2, r2, ?_, ?_, ?_⟩ <;>
        simp [Parser.before, Parser.andThen, Parser.map, Parser.mul, h1, h2,
          Result.flat_map, Result.map]

/-- Claim C10: `string` applied to the empty expected string succeeds on
every input, consuming nothing and returning the unit value. -/
theorem C10_string_empty (input : List Char) :
    string [] input = Result.ok () input := by
  simp [string]

end Parsers
